import Mathlib

/-!
Shallow embedding of the prompt-assembly and response-normalization
pipelines of the repository (files `demos/llm_prompt_to_classify.py`,
`demos/prompt_templates/entity_extraction_prompt.py`,
`demos/prompt_templates/classify_product_items.py`).

Modelling conventions:
* Python values that appear in result dictionaries are `PyVal`; a Python
  dict is an insertion-ordered association list with unique keys.
* `raise` is an `Except.error` carrying a `PyExn`; a function that can
  raise returns `Except PyExn _`.
* The external OpenAI completion endpoint is a stub `EndpointBehavior`
  (it either returns a completion text with optional token usage, or
  raises an `openai.OpenAIError`, or raises some other exception); the
  environment variable `OPENAI_API_KEY` is a stub `Option String`; the
  standard-library JSON reader `json.loads` is a stub oracle
  `String → Except String PyVal` (error = the decode-error text).
  These three are the only pieces not owned by the repository.
* Arguments that are only forwarded to the stubbed endpoint and never
  influence the returned value (temperature, max_tokens, the system
  prompt of the classification variant) are absorbed into the stub.
-/

/-- Python value as it appears in the result dictionaries. -/
inductive PyVal where
  | none : PyVal
  | str : String → PyVal
  | int : Int → PyVal
  | bool : Bool → PyVal
  | list : List PyVal → PyVal
  | dict : List (String × PyVal) → PyVal
deriving Repr

/-- Exceptions the modelled code can raise. -/
inductive PyExn where
  | valueError : String → PyExn
  | nameError : String → PyExn
  | keyError : String → PyExn
deriving Repr, DecidableEq

/-- Behavior of the stubbed external completion endpoint for one call:
a returned completion (content of the first choice, and
`usage.total_tokens` when the endpoint reports usage), a raised
`openai.OpenAIError`, or any other raised exception. -/
inductive EndpointBehavior where
  | success : String → Option Nat → EndpointBehavior
  | openAIError : String → EndpointBehavior
  | otherError : String → EndpointBehavior
deriving Repr, DecidableEq

/-- Outcome of one top-level call: what it returns or raises, and whether
the external completion request was dispatched. -/
structure CallOutcome where
  result : Except PyExn (List (String × PyVal))
  networkCalled : Bool

/-- Lookup in an association-list dictionary (Python `d[k]` / `k in d`). -/
def alookup {α : Type} : List (String × α) → String → Option α
  | [], _ => Option.none
  | (k, v) :: rest, a => if a = k then some v else alookup rest a

/-- Keys of an association-list dictionary, in order. -/
def keys (d : List (String × PyVal)) : List String :=
  d.map Prod.fst

/-- Python `d[k] = v` on a dict: replace in place when the key is present,
append otherwise. -/
def setKey : List (String × PyVal) → String → PyVal → List (String × PyVal)
  | [], k, v => [(k, v)]
  | (k1, v1) :: rest, k, v =>
    if k1 = k then (k1, v) :: rest else (k1, v1) :: setKey rest k v

/-- Python `d.update(m)`: write each entry of `m`, in order, into `d`. -/
def dictUpdate (d : List (String × PyVal)) : List (String × PyVal) → List (String × PyVal)
  | [] => d
  | (k, v) :: m => dictUpdate (setKey d k v) m

/-- Value the last entry of `m` with key `a` carries, if any (the entry of
`m` that survives `dictUpdate`). -/
def lookupLast : List (String × PyVal) → String → Option PyVal
  | [], _ => Option.none
  | (k, v) :: m, a =>
    match lookupLast m a with
    | some w => some w
    | Option.none => if a = k then some v else Option.none

/-- First-some choice on options. -/
def optOr : Option PyVal → Option PyVal → Option PyVal
  | some v, _ => some v
  | Option.none, b => b

/-- Python `sep.join(l)`. -/
def joinSep (sep : String) : List String → String
  | [] => ""
  | [x] => x
  | x :: y :: xs => x ++ sep ++ joinSep sep (y :: xs)

/-- Whitespace characters Python `str.strip()` removes (the ASCII ones;
the demo inputs contain no other whitespace). -/
def isPySpace (c : Char) : Bool :=
  c = ' ' || c = '\t' || c = '\n' || c = '\r' || c = '\x0b' || c = '\x0c'

/-- Python `s.strip()`: drop leading and trailing whitespace. -/
def pyStrip (s : String) : String :=
  ⟨((s.data.dropWhile isPySpace).reverse.dropWhile isPySpace).reverse⟩

/-- Truthiness of a `str | None` Python value. -/
def truthyStr : Option String → Bool
  | Option.none => false
  | some s => s ≠ ""

/-- Python `a or b` on two `str | None` values (used for
`api_key = api_key or os.getenv("OPENAI_API_KEY")`). -/
def orStr : Option String → Option String → Option String
  | some s, b => if s = "" then b else some s
  | Option.none, b => b

/-- Python `response.usage.total_tokens if response.usage else None`. -/
def tokensVal : Option Nat → PyVal
  | some n => PyVal.int n
  | Option.none => PyVal.none

/-- Name of the Python type of a value (used in a modelled
`AttributeError` message). -/
def pyTypeName : PyVal → String
  | PyVal.none => "NoneType"
  | PyVal.str _ => "str"
  | PyVal.int _ => "int"
  | PyVal.bool _ => "bool"
  | PyVal.list _ => "list"
  | PyVal.dict _ => "dict"

/-- Rendering of a `str | None` value inside an f-string (`None` prints as
the four-letter word). -/
def pyOptStr : Option String → String
  | some s => s
  | Option.none => "None"

/-- The `Entity` dataclass of `entity_extraction_prompt.py`. -/
structure Entity where
  name : String
  description : Option String := Option.none
  examples : Option (List String) := Option.none
deriving Repr, DecidableEq

/-- The static `ENTITY_TYPES` registry (an ordered mapping). -/
def ENTITY_TYPES : List (String × Entity) :=
  [ ("company",
     { name := "company",
       description := some "A company is a legal entity that is registered and has a unique identifier.",
       examples := some ["Apple Inc.", "Google LLC", "Microsoft Corporation"] }),
    ("city",
     { name := "city",
       description := some "A city is a large human settlement.",
       examples := some ["New York", "London", "Paris"] }),
    ("organization",
     { name := "organization",
       description := some "An organization is a group of people who share a common purpose.",
       examples := some ["United Nations", "World Health Organization", "Red Cross"] }),
    ("business_unit",
     { name := "business_unit",
       description := some "A business unit is a division of a company that is responsible for a specific function or product.",
       examples := some ["Sales", "Marketing", "Finance", "Engineering", "IT Support", "Accounting"] }),
    ("person",
     { name := "person",
       description := some "A person is a human being.",
       examples := some ["John Doe", "Jane Smith", "Bob Johnson"] }),
    ("job_title",
     { name := "job_title",
       description := some "A job title is a title given to a person who is employed by a company.",
       examples := some ["Software Engineer", "Product Manager", "Marketing Manager", "Sales Manager", "Accountant", "IT Support", "Engineer"] }) ]

/-- Piece of a Python `str.format` template: a literal chunk (with `\x7b\x7b`
escapes already unescaped to plain brace characters) or a named placeholder. -/
inductive TmplPart where
  | lit : String → TmplPart
  | field : String → TmplPart
deriving Repr, DecidableEq

/-- Python `template.format(**env)`: substitute every placeholder from the
keyword environment; a placeholder absent from the environment raises
`KeyError` (reported as the field name). -/
def renderTmpl (env : List (String × String)) : List TmplPart → Except String String
  | [] => Except.ok ""
  | TmplPart.lit s :: rest =>
    match renderTmpl env rest with
    | Except.ok r => Except.ok (s ++ r)
    | Except.error e => Except.error e
  | TmplPart.field f :: rest =>
    match alookup env f with
    | some v =>
      match renderTmpl env rest with
      | Except.ok r => Except.ok (v ++ r)
      | Except.error e => Except.error e
    | Option.none => Except.error f

/-- The `ENTITY_EXTRACTION_PROMPT` template literal, split at its two
placeholders (`entity_types` and `text`). -/
def ENTITY_EXTRACTION_PROMPT : List TmplPart :=
  [ TmplPart.lit "\nYou are an entity extraction expert. You are given a text and you need to extract the entities from the text.\n\nHere is a list of the entity types you can extract:\n",
    TmplPart.field "entity_types",
    TmplPart.lit "\n\nThe text to extract entities from is:\n",
    TmplPart.field "text",
    TmplPart.lit "\n\nReturn the entities in the following JSON format:\n\x7b\"entities\": [\x7b\"predicted_entity_type\": \"entity_type\", \"predicted_entity_name\": \"entity_name\", \"predicted_entity_description\": \"entity_description\"\x7d]\x7d\n" ]

/-- Final step of `assemble_ner_prompt`: append the
`Additional Instructions` block when `custom_instructions` is truthy
(`if custom_instructions: formatted_prompt += ...`). -/
def applyCustomInstructions (formatted_prompt : String) : Option String → String
  | some ci =>
    if ci = "" then formatted_prompt
    else formatted_prompt ++ "\n\nAdditional Instructions:\n" ++ ci
  | Option.none => formatted_prompt

/-- One loop-body step of `assemble_ner_prompt`: the bullet line built for
one entity (`- name: description`, with an `Examples:` tail when examples
are requested and the entity has a non-empty example list). -/
def formatEntityLine (include_examples : Bool) (e : Entity) : String :=
  match e.examples with
  | some exs =>
    if include_examples && !exs.isEmpty then
      "- " ++ e.name ++ ": " ++ pyOptStr e.description ++ " Examples: " ++ joinSep ", " exs
    else
      "- " ++ e.name ++ ": " ++ pyOptStr e.description
  | Option.none => "- " ++ e.name ++ ": " ++ pyOptStr e.description

/-- The function `assemble_ner_prompt` of `entity_extraction_prompt.py`:
validates the text, falls back to `ENTITY_TYPES` when `entity_types` is
`None`, renders the entity bullet list into the template, and appends the
`Additional Instructions` block when `custom_instructions` is truthy. -/
def assemble_ner_prompt
    (text : String)
    (entity_types : Option (List (String × Entity)))
    (prompt_template : List TmplPart)
    (include_examples : Bool)
    (custom_instructions : Option String) : Except PyExn String :=
  if pyStrip text = "" then
    Except.error (PyExn.valueError "text cannot be empty")
  else
    let et := match entity_types with
      | some m => m
      | Option.none => ENTITY_TYPES
    let entity_types_text := joinSep "\n" (et.map (fun p => formatEntityLine include_examples p.2))
    match renderTmpl [("entity_types", entity_types_text), ("text", text)] prompt_template with
    | Except.error f => Except.error (PyExn.keyError f)
    | Except.ok formatted_prompt =>
      Except.ok (applyCustomInstructions formatted_prompt custom_instructions)

/-- The metadata dictionary `classify_text_with_openai` writes into the
parsed response on the success path (`result.update({...})`). -/
def classifyMeta (text_to_classify : String) (classification_categories : List String)
    (model : String) (usage : Option Nat) : List (String × PyVal) :=
  [ ("input_text", PyVal.str text_to_classify),
    ("available_categories", PyVal.list (classification_categories.map PyVal.str)),
    ("model_used", PyVal.str model),
    ("tokens_used", tokensVal usage) ]

/-- The function `classify_text_with_openai` of `llm_prompt_to_classify.py`.
Validation failures raise `ValueError` before the endpoint is reached; once
the completion request has been dispatched every failure is converted into a
returned error dictionary. The default system prompt and the user message
only feed the stubbed endpoint, so they do not appear in the model. When
`json.loads` yields a non-dict value, `result.update` raises
`AttributeError`, which the outer catch-all turns into an unexpected-error
dictionary (its message is paraphrased here without the CPython quoting). -/
def classify_text_with_openai
    (jloads : String → Except String PyVal)
    (endpoint : EndpointBehavior)
    (envApiKey : Option String)
    (text_to_classify : String)
    (classification_categories : List String)
    (model : String)
    (api_key : Option String) : CallOutcome :=
  if pyStrip text_to_classify = "" then
    { result := Except.error (PyExn.valueError "text_to_classify cannot be empty"),
      networkCalled := false }
  else if classification_categories = [] then
    { result := Except.error (PyExn.valueError "classification_categories cannot be empty"),
      networkCalled := false }
  else if truthyStr (orStr api_key envApiKey) then
    match endpoint with
    | EndpointBehavior.success content usage =>
      match jloads content with
      | Except.ok (PyVal.dict obj) =>
        { result := Except.ok (dictUpdate obj
            (classifyMeta text_to_classify classification_categories model usage)),
          networkCalled := true }
      | Except.ok v =>
        { result := Except.ok
            [ ("error", PyVal.str ("Unexpected error: " ++ pyTypeName v ++ " object has no attribute update")),
              ("input_text", PyVal.str text_to_classify),
              ("available_categories", PyVal.list (classification_categories.map PyVal.str)) ],
          networkCalled := true }
      | Except.error e =>
        { result := Except.ok
            [ ("error", PyVal.str "Failed to parse JSON response from OpenAI"),
              ("raw_response", PyVal.str content),
              ("json_error", PyVal.str e),
              ("input_text", PyVal.str text_to_classify),
              ("available_categories", PyVal.list (classification_categories.map PyVal.str)) ],
          networkCalled := true }
    | EndpointBehavior.openAIError msg =>
      { result := Except.ok
          [ ("error", PyVal.str ("OpenAI API error: " ++ msg)),
            ("input_text", PyVal.str text_to_classify),
            ("available_categories", PyVal.list (classification_categories.map PyVal.str)) ],
        networkCalled := true }
    | EndpointBehavior.otherError msg =>
      { result := Except.ok
          [ ("error", PyVal.str ("Unexpected error: " ++ msg)),
            ("input_text", PyVal.str text_to_classify),
            ("available_categories", PyVal.list (classification_categories.map PyVal.str)) ],
        networkCalled := true }
  else
    { result := Except.error (PyExn.valueError "OpenAI API key is required. Set OPENAI_API_KEY environment variable or pass api_key parameter"),
      networkCalled := false }

/-- The expression
`list(entity_types.keys()) if entity_types else list(ENTITY_TYPES.keys())`
used for the `entity_types_used` metadata (a `None` or empty mapping both
fall back to the default registry keys, by Python truthiness). -/
def entityTypesUsed (entity_types : Option (List (String × Entity))) : List String :=
  match entity_types with
  | some m => if m.isEmpty then ENTITY_TYPES.map Prod.fst else m.map Prod.fst
  | Option.none => ENTITY_TYPES.map Prod.fst

/-- The function `extract_entities_with_openai` of
`entity_extraction_prompt.py`. The prompt is assembled after the credential
check and outside the try-block, so an assembly failure propagates to the
caller without a network call; the parsed response is stored whole under
`extracted_entities` next to the request metadata. -/
def extract_entities_with_openai
    (jloads : String → Except String PyVal)
    (endpoint : EndpointBehavior)
    (envApiKey : Option String)
    (text : String)
    (entity_types : Option (List (String × Entity)))
    (prompt_template : List TmplPart)
    (model : String)
    (api_key : Option String)
    (include_examples : Bool)
    (custom_instructions : Option String) : CallOutcome :=
  if pyStrip text = "" then
    { result := Except.error (PyExn.valueError "text cannot be empty"),
      networkCalled := false }
  else if truthyStr (orStr api_key envApiKey) then
    match assemble_ner_prompt text entity_types prompt_template include_examples custom_instructions with
    | Except.error e => { result := Except.error e, networkCalled := false }
    | Except.ok _assembled =>
      match endpoint with
      | EndpointBehavior.success content usage =>
        match jloads content with
        | Except.ok parsed =>
          { result := Except.ok
              [ ("extracted_entities", parsed),
                ("input_text", PyVal.str text),
                ("entity_types_used", PyVal.list ((entityTypesUsed entity_types).map PyVal.str)),
                ("model_used", PyVal.str model),
                ("tokens_used", tokensVal usage) ],
            networkCalled := true }
        | Except.error e =>
          { result := Except.ok
              [ ("error", PyVal.str "Failed to parse JSON response from OpenAI"),
                ("raw_response", PyVal.str content),
                ("json_error", PyVal.str e),
                ("input_text", PyVal.str text),
                ("entity_types_used", PyVal.list ((entityTypesUsed entity_types).map PyVal.str)) ],
            networkCalled := true }
      | EndpointBehavior.openAIError msg =>
        { result := Except.ok
            [ ("error", PyVal.str ("OpenAI API error: " ++ msg)),
              ("input_text", PyVal.str text),
              ("entity_types_used", PyVal.list ((entityTypesUsed entity_types).map PyVal.str)) ],
          networkCalled := true }
      | EndpointBehavior.otherError msg =>
        { result := Except.ok
            [ ("error", PyVal.str ("Unexpected error: " ++ msg)),
              ("input_text", PyVal.str text),
              ("entity_types_used", PyVal.list ((entityTypesUsed entity_types).map PyVal.str)) ],
          networkCalled := true }
  else
    { result := Except.error (PyExn.valueError "OpenAI API key is required. Set OPENAI_API_KEY environment variable or pass api_key parameter"),
      networkCalled := false }

/-- Names bound at module scope of `classify_product_items.py` when the
module is imported: the imports, the dataclass, the registry, the template
and the function itself. The demo driver under the main guard (which would
also bind `product_items`) does not run on import and is out of the
specified scope. -/
def classifyProductItemsImportGlobals : List String :=
  [ "Enum", "dataclass", "json", "os", "Dict", "Any", "Optional", "List",
    "openai", "OpenAI", "load_dotenv", "ProductCategory", "PRODUCT_CATEGORIES",
    "CLASSIFY_PRODUCT_ITEMS_PROMPT", "generate_product_classification_text" ]

/-- The function `generate_product_classification_text` of
`classify_product_items.py`. Its first executed statement,
`if not product_items:` (line 101), evaluates the free name `product_items`,
which is resolved against the module globals; no binding exists there, so
every call raises `NameError` before the text validation, the credential
check or any network dispatch. The remaining body (lines 104-183) is
unreachable and its meaning depends on the missing value of `product_items`
(read again at line 123), so the reachable branch below is a placeholder
that the name-resolution check provably never selects. -/
def generate_product_classification_text
    (_endpoint : EndpointBehavior)
    (_envApiKey : Option String)
    (_product_item_name : String)
    (_product_description : Option String)
    (_model : String)
    (_api_key : Option String) : CallOutcome :=
  if classifyProductItemsImportGlobals.contains "product_items" then
    { result := Except.ok [], networkCalled := true }
  else
    { result := Except.error (PyExn.nameError "product_items"), networkCalled := false }

/-- Substring relation on strings (infix on the character data). -/
def isSubstr (a b : String) : Prop := a.data <:+: b.data

/-- Error message of the dictionary a caught endpoint-level fault is
converted into, by the fault kind (`None` for a successful completion). -/
def endpointFaultMsg : EndpointBehavior → Option String
  | EndpointBehavior.openAIError m => some ("OpenAI API error: " ++ m)
  | EndpointBehavior.otherError m => some ("Unexpected error: " ++ m)
  | EndpointBehavior.success _ _ => Option.none

/-!
Supporting lemmas about the dictionary and string operations of the model.
-/

theorem alookup_setKey_self (d : List (String × PyVal)) (k : String) (v : PyVal) :
    alookup (setKey d k v) k = some v := by
  induction d with
  | nil => simp [setKey, alookup]
  | cons p rest ih =>
    obtain ⟨k1, v1⟩ := p
    by_cases h : k1 = k
    · simp [setKey, h, alookup]
    · simp [setKey, h, alookup, Ne.symm h, ih]

theorem alookup_setKey_ne (d : List (String × PyVal)) (k a : String) (v : PyVal)
    (h : a ≠ k) : alookup (setKey d k v) a = alookup d a := by
  induction d with
  | nil => simp [setKey, alookup, h]
  | cons p rest ih =>
    obtain ⟨k1, v1⟩ := p
    by_cases h1 : k1 = k
    · subst h1; simp [setKey, alookup, h]
    · simp [setKey, h1, alookup, ih]

theorem alookup_dictUpdate (m d : List (String × PyVal)) (a : String) :
    alookup (dictUpdate d m) a = optOr (lookupLast m a) (alookup d a) := by
  induction m generalizing d with
  | nil => simp [dictUpdate, lookupLast, optOr]
  | cons p m ih =>
    obtain ⟨k, v⟩ := p
    rw [dictUpdate, ih]
    cases hl : lookupLast m a with
    | some w => simp [lookupLast, hl, optOr]
    | none =>
      by_cases h : a = k
      · subst h; simp [lookupLast, hl, optOr, alookup_setKey_self]
      · simp [lookupLast, hl, optOr, h, alookup_setKey_ne _ _ _ _ h]

theorem lookupLast_isSome_eq_alookup_isSome (m : List (String × PyVal)) (a : String) :
    (lookupLast m a).isSome = (alookup m a).isSome := by
  induction m with
  | nil => rfl
  | cons p m ih =>
    obtain ⟨k, v⟩ := p
    by_cases h : a = k
    · subst h
      cases hl : lookupLast m a with
      | some w => simp [lookupLast, hl, alookup]
      | none => simp [lookupLast, hl, alookup]
    · cases hl : lookupLast m a with
      | some w => simp [lookupLast, hl, alookup, h, ← ih]
      | none => simp [lookupLast, hl, alookup, h, ← ih]

theorem isSubstr_rfl (a : String) : isSubstr a a := List.infix_rfl

theorem isSubstr_append_left (b a c : String) (h : isSubstr a c) : isSubstr a (b ++ c) := by
  obtain ⟨s, t, hst⟩ := h
  exact ⟨b.data ++ s, t, by rw [String.data_append, ← hst]; simp [List.append_assoc]⟩

theorem isSubstr_append_right (c a b : String) (h : isSubstr a b) : isSubstr a (b ++ c) := by
  obtain ⟨s, t, hst⟩ := h
  exact ⟨s, t ++ c.data, by rw [String.data_append, ← hst]; simp [List.append_assoc]⟩

theorem isSubstr_joinSep (sep : String) (l : List String) (x : String) :
    x ∈ l → isSubstr x (joinSep sep l) := by
  induction l with
  | nil => intro h; cases h
  | cons y ys ih =>
    intro h
    cases ys with
    | nil =>
      rcases List.mem_cons.mp h with h | h
      · subst h; simp only [joinSep]; exact isSubstr_rfl x
      · cases h
    | cons z zs =>
      simp only [joinSep]
      rcases List.mem_cons.mp h with h | h
      · subst h
        exact isSubstr_append_right _ _ _ (isSubstr_append_right _ _ _ (isSubstr_rfl x))
      · exact isSubstr_append_left _ _ _ (ih h)

theorem assemble_default_ok (text : String) (ets : Option (List (String × Entity)))
    (incl : Bool) (ci : Option String) (h : pyStrip text ≠ "") :
    ∃ s, assemble_ner_prompt text ets ENTITY_EXTRACTION_PROMPT incl ci = Except.ok s := by
  unfold assemble_ner_prompt
  rw [if_neg h]
  exact ⟨_, rfl⟩

theorem optOr_isSome (x y : Option PyVal) : (optOr x y).isSome = (x.isSome || y.isSome) := by
  cases x <;> simp [optOr]

/-!
Claim theorems.
-/

/-- C3: for every argument combination, `generate_product_classification_text`
raises an unhandled `NameError` on the free name `product_items` before
reaching its validation outcome or making any network call; the function can
never return a result. -/
theorem generate_product_always_nameError
    (endpoint : EndpointBehavior) (envApiKey : Option String)
    (product_item_name : String) (product_description : Option String)
    (model : String) (api_key : Option String) :
    (generate_product_classification_text endpoint envApiKey product_item_name
        product_description model api_key).result
      = Except.error (PyExn.nameError "product_items") ∧
    (generate_product_classification_text endpoint envApiKey product_item_name
        product_description model api_key).networkCalled = false := by
  constructor <;> rfl

/-- C7: when the `api_key` parameter is `None` and the `OPENAI_API_KEY`
environment variable is absent, `classify_text_with_openai` and
`extract_entities_with_openai` raise a `ValueError` (the configuration
error) synchronously, before attempting any network call. -/
theorem missing_api_key_raises_before_call :
    (∀ (jloads : String → Except String PyVal) (endpoint : EndpointBehavior)
       (text : String) (cats : List String) (model : String),
       pyStrip text ≠ "" → cats ≠ [] →
       (classify_text_with_openai jloads endpoint Option.none text cats model Option.none).result
         = Except.error (PyExn.valueError "OpenAI API key is required. Set OPENAI_API_KEY environment variable or pass api_key parameter") ∧
       (classify_text_with_openai jloads endpoint Option.none text cats model Option.none).networkCalled = false)
    ∧
    (∀ (jloads : String → Except String PyVal) (endpoint : EndpointBehavior)
       (text : String) (ets : Option (List (String × Entity))) (tmpl : List TmplPart)
       (model : String) (incl : Bool) (ci : Option String),
       pyStrip text ≠ "" →
       (extract_entities_with_openai jloads endpoint Option.none text ets tmpl model Option.none incl ci).result
         = Except.error (PyExn.valueError "OpenAI API key is required. Set OPENAI_API_KEY environment variable or pass api_key parameter") ∧
       (extract_entities_with_openai jloads endpoint Option.none text ets tmpl model Option.none incl ci).networkCalled = false) := by
  constructor
  · intro jloads endpoint text cats model h1 h2
    constructor <;> simp [classify_text_with_openai, h1, h2, truthyStr, orStr]
  · intro jloads endpoint text ets tmpl model incl ci h1
    constructor <;> simp [extract_entities_with_openai, h1, truthyStr, orStr]

/-- Witness for C7 at a concrete input. -/
theorem missing_api_key_raises_before_call_witness :
    pyStrip "hello" ≠ "" ∧ (["positive"] : List String) ≠ [] ∧
    (classify_text_with_openai (fun _ => Except.error "stub")
        (EndpointBehavior.success "stub" Option.none) Option.none
        "hello" ["positive"] "gpt-3.5-turbo" Option.none).result
      = Except.error (PyExn.valueError "OpenAI API key is required. Set OPENAI_API_KEY environment variable or pass api_key parameter") :=
  ⟨by decide, by decide,
    (missing_api_key_raises_before_call.1 _ _ _ _ _ (by decide) (by decide)).1⟩

/-- C10: `assemble_ner_prompt` treats an empty `custom_instructions` string
exactly like `None` (no `Additional Instructions` block), and appends the
block exactly when `custom_instructions` is non-empty. -/
theorem empty_custom_instructions_like_none :
    (∀ (text : String) (ets : Option (List (String × Entity))) (tmpl : List TmplPart) (incl : Bool),
       assemble_ner_prompt text ets tmpl incl (some "")
         = assemble_ner_prompt text ets tmpl incl Option.none)
    ∧
    (∀ (text : String) (ets : Option (List (String × Entity))) (tmpl : List TmplPart)
       (incl : Bool) (ci fp : String), ci ≠ "" →
       assemble_ner_prompt text ets tmpl incl Option.none = Except.ok fp →
       assemble_ner_prompt text ets tmpl incl (some ci)
         = Except.ok (fp ++ "\n\nAdditional Instructions:\n" ++ ci)) := by
  constructor
  · intro text ets tmpl incl
    unfold assemble_ner_prompt
    by_cases h : pyStrip text = ""
    · simp [h]
    · simp only [h, if_false]
      split <;> simp [applyCustomInstructions]
  · intro text ets tmpl incl ci fp hci hok
    unfold assemble_ner_prompt at hok ⊢
    by_cases h : pyStrip text = ""
    · simp [h] at hok
    · simp only [h, if_false] at hok ⊢
      split at hok
      · simp_all
      · simp_all [applyCustomInstructions, hci]

set_option maxRecDepth 10000 in
/-- Witness for C10 at a concrete input. -/
theorem empty_custom_instructions_like_none_witness :
    ("be brief" : String) ≠ "" ∧
    assemble_ner_prompt "hello" (some [("c", { name := "cat", description := some "a cat" })])
        ENTITY_EXTRACTION_PROMPT true Option.none
      = Except.ok "\nYou are an entity extraction expert. You are given a text and you need to extract the entities from the text.\n\nHere is a list of the entity types you can extract:\n- cat: a cat\n\nThe text to extract entities from is:\nhello\n\nReturn the entities in the following JSON format:\n\x7b\"entities\": [\x7b\"predicted_entity_type\": \"entity_type\", \"predicted_entity_name\": \"entity_name\", \"predicted_entity_description\": \"entity_description\"\x7d]\x7d\n" ∧
    assemble_ner_prompt "hello" (some [("c", { name := "cat", description := some "a cat" })])
        ENTITY_EXTRACTION_PROMPT true (some "be brief")
      = Except.ok ("\nYou are an entity extraction expert. You are given a text and you need to extract the entities from the text.\n\nHere is a list of the entity types you can extract:\n- cat: a cat\n\nThe text to extract entities from is:\nhello\n\nReturn the entities in the following JSON format:\n\x7b\"entities\": [\x7b\"predicted_entity_type\": \"entity_type\", \"predicted_entity_name\": \"entity_name\", \"predicted_entity_description\": \"entity_description\"\x7d]\x7d\n" ++ "\n\nAdditional Instructions:\nbe brief") :=
  ⟨by decide, by rfl,
    empty_custom_instructions_like_none.2 _ _ _ _ _ _ (by decide) (by rfl)⟩

/-- C1 -/
theorem endpoint_fault_absorbed :
    (∀ (jloads : String → Except String PyVal) (envApiKey : Option String)
       (e : EndpointBehavior) (text : String) (cats : List String)
       (model : String) (api_key : Option String) (msg : String),
       endpointFaultMsg e = some msg → pyStrip text ≠ "" → cats ≠ [] →
       truthyStr (orStr api_key envApiKey) = true →
       (classify_text_with_openai jloads e envApiKey text cats model api_key).networkCalled = true ∧
       ∃ d, (classify_text_with_openai jloads e envApiKey text cats model api_key).result = Except.ok d ∧
         alookup d "error" = some (PyVal.str msg) ∧
         alookup d "raw_response" = Option.none)
    ∧
    (∀ (jloads : String → Except String PyVal) (envApiKey : Option String)
       (e : EndpointBehavior) (text : String) (ets : Option (List (String × Entity)))
       (model : String) (api_key : Option String) (incl : Bool) (ci : Option String) (msg : String),
       endpointFaultMsg e = some msg → pyStrip text ≠ "" →
       truthyStr (orStr api_key envApiKey) = true →
       (extract_entities_with_openai jloads e envApiKey text ets ENTITY_EXTRACTION_PROMPT model api_key incl ci).networkCalled = true ∧
       ∃ d, (extract_entities_with_openai jloads e envApiKey text ets ENTITY_EXTRACTION_PROMPT model api_key incl ci).result = Except.ok d ∧
         alookup d "error" = some (PyVal.str msg) ∧
         alookup d "raw_response" = Option.none) := by
  constructor
  · intro jloads envApiKey e text cats model api_key msg hmsg h1 h2 h3
    cases e with
    | success content usage => simp [endpointFaultMsg] at hmsg
    | openAIError m =>
      simp only [endpointFaultMsg, Option.some.injEq] at hmsg
      subst hmsg
      refine ⟨by simp [classify_text_with_openai, h1, h2, h3], ?_⟩
      exact ⟨[("error", PyVal.str ("OpenAI API error: " ++ m)),
              ("input_text", PyVal.str text),
              ("available_categories", PyVal.list (cats.map PyVal.str))],
             by simp [classify_text_with_openai, h1, h2, h3], by rfl, by rfl⟩
    | otherError m =>
      simp only [endpointFaultMsg, Option.some.injEq] at hmsg
      subst hmsg
      refine ⟨by simp [classify_text_with_openai, h1, h2, h3], ?_⟩
      exact ⟨[("error", PyVal.str ("Unexpected error: " ++ m)),
              ("input_text", PyVal.str text),
              ("available_categories", PyVal.list (cats.map PyVal.str))],
             by simp [classify_text_with_openai, h1, h2, h3], by rfl, by rfl⟩
  · intro jloads envApiKey e text ets model api_key incl ci msg hmsg h1 h3
    obtain ⟨s, hs⟩ := assemble_default_ok text ets incl ci h1
    cases e with
    | success content usage => simp [endpointFaultMsg] at hmsg
    | openAIError m =>
      simp only [endpointFaultMsg, Option.some.injEq] at hmsg
      subst hmsg
      refine ⟨by simp [extract_entities_with_openai, h1, h3, hs], ?_⟩
      exact ⟨[("error", PyVal.str ("OpenAI API error: " ++ m)),
              ("input_text", PyVal.str text),
              ("entity_types_used", PyVal.list ((entityTypesUsed ets).map PyVal.str))],
             by simp [extract_entities_with_openai, h1, h3, hs], by rfl, by rfl⟩
    | otherError m =>
      simp only [endpointFaultMsg, Option.some.injEq] at hmsg
      subst hmsg
      refine ⟨by simp [extract_entities_with_openai, h1, h3, hs], ?_⟩
      exact ⟨[("error", PyVal.str ("Unexpected error: " ++ m)),
              ("input_text", PyVal.str text),
              ("entity_types_used", PyVal.list ((entityTypesUsed ets).map PyVal.str))],
             by simp [extract_entities_with_openai, h1, h3, hs], by rfl, by rfl⟩

theorem endpoint_fault_absorbed_witness :
    endpointFaultMsg (EndpointBehavior.openAIError "rate limit") = some "OpenAI API error: rate limit" ∧
    pyStrip "hello" ≠ "" ∧ (["a"] : List String) ≠ [] ∧
    truthyStr (orStr (some "sk-test") Option.none) = true ∧
    ((classify_text_with_openai (fun _ => Except.error "stub")
        (EndpointBehavior.openAIError "rate limit") Option.none
        "hello" ["a"] "gpt-3.5-turbo" (some "sk-test")).networkCalled = true ∧
     ∃ d, (classify_text_with_openai (fun _ => Except.error "stub")
        (EndpointBehavior.openAIError "rate limit") Option.none
        "hello" ["a"] "gpt-3.5-turbo" (some "sk-test")).result = Except.ok d ∧
       alookup d "error" = some (PyVal.str "OpenAI API error: rate limit") ∧
       alookup d "raw_response" = Option.none) :=
  ⟨rfl, by decide, by decide, by decide,
    endpoint_fault_absorbed.1 _ _ _ _ _ _ _ _ rfl (by decide) (by decide) (by decide)⟩

/-- C2 counterexample -/
theorem extract_success_not_merged_cex :
    ∃ d, (extract_entities_with_openai
        (fun _ => Except.ok (PyVal.dict [("entities", PyVal.list [])]))
        (EndpointBehavior.success "\x7b\"entities\": []\x7d" (some 5))
        Option.none "hi" Option.none ENTITY_EXTRACTION_PROMPT "gpt-3.5-turbo" (some "sk-test")
        true Option.none).result = Except.ok d ∧
      alookup d "extracted_entities" = some (PyVal.dict [("entities", PyVal.list [])]) ∧
      alookup d "entities" = Option.none :=
  ⟨_, rfl, rfl, rfl⟩

/-- C2 amended -/
theorem success_metadata_merge :
    (∀ (jloads : String → Except String PyVal) (envApiKey : Option String)
       (text : String) (cats : List String) (model : String) (api_key : Option String)
       (content : String) (usage : Option Nat) (obj : List (String × PyVal)),
       pyStrip text ≠ "" → cats ≠ [] → truthyStr (orStr api_key envApiKey) = true →
       jloads content = Except.ok (PyVal.dict obj) →
       (classify_text_with_openai jloads (EndpointBehavior.success content usage) envApiKey text cats model api_key).result
         = Except.ok (dictUpdate obj (classifyMeta text cats model usage)) ∧
       (∀ a, (alookup (dictUpdate obj (classifyMeta text cats model usage)) a).isSome
           ↔ ((alookup obj a).isSome ∨ (alookup (classifyMeta text cats model usage) a).isSome)) ∧
       alookup (dictUpdate obj (classifyMeta text cats model usage)) "input_text" = some (PyVal.str text) ∧
       alookup (dictUpdate obj (classifyMeta text cats model usage)) "available_categories" = some (PyVal.list (cats.map PyVal.str)) ∧
       alookup (dictUpdate obj (classifyMeta text cats model usage)) "model_used" = some (PyVal.str model) ∧
       alookup (dictUpdate obj (classifyMeta text cats model usage)) "tokens_used" = some (tokensVal usage) ∧
       (∀ a, alookup (classifyMeta text cats model usage) a = Option.none →
          alookup (dictUpdate obj (classifyMeta text cats model usage)) a = alookup obj a))
    ∧
    (∀ (jloads : String → Except String PyVal) (envApiKey : Option String)
       (text : String) (ets : Option (List (String × Entity))) (model : String)
       (api_key : Option String) (incl : Bool) (ci : Option String)
       (content : String) (usage : Option Nat) (v : PyVal),
       pyStrip text ≠ "" → truthyStr (orStr api_key envApiKey) = true →
       jloads content = Except.ok v →
       (extract_entities_with_openai jloads (EndpointBehavior.success content usage) envApiKey text ets ENTITY_EXTRACTION_PROMPT model api_key incl ci).result
         = Except.ok
             [ ("extracted_entities", v),
               ("input_text", PyVal.str text),
               ("entity_types_used", PyVal.list ((entityTypesUsed ets).map PyVal.str)),
               ("model_used", PyVal.str model),
               ("tokens_used", tokensVal usage) ]) := by
  constructor
  · intro jloads envApiKey text cats model api_key content usage obj h1 h2 h3 hjl
    refine ⟨by simp [classify_text_with_openai, h1, h2, h3, hjl], ?_, ?_, ?_, ?_, ?_, ?_⟩
    · intro a
      simp only [alookup_dictUpdate, optOr_isSome, lookupLast_isSome_eq_alookup_isSome,
        Bool.or_eq_true]
      exact Or.comm
    · rw [alookup_dictUpdate]; rfl
    · rw [alookup_dictUpdate]; rfl
    · rw [alookup_dictUpdate]; rfl
    · rw [alookup_dictUpdate]; rfl
    · intro a ha
      rw [alookup_dictUpdate]
      cases hl : lookupLast (classifyMeta text cats model usage) a with
      | none => rfl
      | some w =>
        have h0 := lookupLast_isSome_eq_alookup_isSome (classifyMeta text cats model usage) a
        rw [hl, ha] at h0
        simp at h0
  · intro jloads envApiKey text ets model api_key incl ci content usage v h1 h3 hjl
    obtain ⟨s, hs⟩ := assemble_default_ok text ets incl ci h1
    simp [extract_entities_with_openai, h1, h3, hs, hjl]

/-- C2 witness -/
theorem success_metadata_merge_witness :
    pyStrip "hello" ≠ "" ∧ (["positive"] : List String) ≠ [] ∧
    truthyStr (orStr (some "sk-test") Option.none) = true ∧
    (classify_text_with_openai
        (fun _ => Except.ok (PyVal.dict [("classification", PyVal.str "positive"), ("input_text", PyVal.str "spoof")]))
        (EndpointBehavior.success "c" (some 42)) Option.none
        "hello" ["positive"] "gpt-3.5-turbo" (some "sk-test")).result
      = Except.ok (dictUpdate [("classification", PyVal.str "positive"), ("input_text", PyVal.str "spoof")]
          (classifyMeta "hello" ["positive"] "gpt-3.5-turbo" (some 42))) ∧
    alookup (dictUpdate [("classification", PyVal.str "positive"), ("input_text", PyVal.str "spoof")]
        (classifyMeta "hello" ["positive"] "gpt-3.5-turbo" (some 42))) "input_text"
      = some (PyVal.str "hello") :=
  ⟨by decide, by decide, by decide,
    (success_metadata_merge.1 _ _ _ _ _ _ _ _ _ (by decide) (by decide) (by decide) rfl).1,
    (success_metadata_merge.1 (fun _ => Except.ok (PyVal.dict [("classification", PyVal.str "positive"), ("input_text", PyVal.str "spoof")]))
      Option.none "hello" ["positive"] "gpt-3.5-turbo" (some "sk-test") "c" (some 42) _
      (by decide) (by decide) (by decide) rfl).2.2.1⟩

/-- C4 counterexample -/
theorem fault_result_missing_model_cex :
    ∃ d, (classify_text_with_openai (fun _ => Except.error "stub")
        (EndpointBehavior.openAIError "rate limit") Option.none
        "hello" ["a"] "gpt-3.5-turbo" (some "sk-test")).result = Except.ok d ∧
      alookup d "error" = some (PyVal.str "OpenAI API error: rate limit") ∧
      alookup d "model_used" = Option.none :=
  ⟨_, rfl, rfl, rfl⟩

/-- C4 amended -/
theorem result_traceability :
    (∀ (jloads : String → Except String PyVal) (envApiKey : Option String)
       (e : EndpointBehavior) (text : String) (cats : List String)
       (model : String) (api_key : Option String) (d : List (String × PyVal)),
       (classify_text_with_openai jloads e envApiKey text cats model api_key).result = Except.ok d →
       alookup d "input_text" = some (PyVal.str text) ∧
       alookup d "available_categories" = some (PyVal.list (cats.map PyVal.str)) ∧
       ((alookup d "model_used").isSome ↔
         ∃ content usage obj, e = EndpointBehavior.success content usage ∧
           jloads content = Except.ok (PyVal.dict obj)))
    ∧
    (∀ (jloads : String → Except String PyVal) (envApiKey : Option String)
       (e : EndpointBehavior) (text : String) (ets : Option (List (String × Entity)))
       (model : String) (api_key : Option String) (incl : Bool) (ci : Option String)
       (d : List (String × PyVal)),
       (extract_entities_with_openai jloads e envApiKey text ets ENTITY_EXTRACTION_PROMPT model api_key incl ci).result = Except.ok d →
       alookup d "input_text" = some (PyVal.str text) ∧
       alookup d "entity_types_used" = some (PyVal.list ((entityTypesUsed ets).map PyVal.str)) ∧
       ((alookup d "model_used").isSome ↔
         ∃ content usage v, e = EndpointBehavior.success content usage ∧
           jloads content = Except.ok v)) := by
  constructor
  · intro jloads envApiKey e text cats model api_key d hok
    by_cases h1 : pyStrip text = ""
    · simp [classify_text_with_openai, h1] at hok
    by_cases h2 : cats = []
    · simp [classify_text_with_openai, h1, h2] at hok
    by_cases h3 : truthyStr (orStr api_key envApiKey) = true
    · cases e with
      | openAIError m =>
        simp [classify_text_with_openai, h1, h2, h3] at hok
        subst hok
        refine ⟨rfl, rfl, iff_of_false (by simp [alookup]) ?_⟩
        rintro ⟨c, u, obj, heq, _⟩
        simp at heq
      | otherError m =>
        simp [classify_text_with_openai, h1, h2, h3] at hok
        subst hok
        refine ⟨rfl, rfl, iff_of_false (by simp [alookup]) ?_⟩
        rintro ⟨c, u, obj, heq, _⟩
        simp at heq
      | success content usage =>
        cases hjl : jloads content with
        | error err =>
          simp [classify_text_with_openai, h1, h2, h3, hjl] at hok
          subst hok
          refine ⟨rfl, rfl, iff_of_false (by simp [alookup]) ?_⟩
          rintro ⟨c, u, obj, heq, hj⟩
          obtain ⟨rfl, rfl⟩ : c = content ∧ u = usage := by
            injection heq with hc hu
            exact ⟨hc.symm, hu.symm⟩
          rw [hjl] at hj
          simp at hj
        | ok v =>
          cases v with
          | dict obj =>
            simp [classify_text_with_openai, h1, h2, h3, hjl] at hok
            subst hok
            refine ⟨by rw [alookup_dictUpdate]; rfl, by rw [alookup_dictUpdate]; rfl,
              iff_of_true (by rw [alookup_dictUpdate]; rfl) ⟨content, usage, obj, rfl, hjl⟩⟩
          | none =>
            simp [classify_text_with_openai, h1, h2, h3, hjl] at hok
            subst hok
            refine ⟨rfl, rfl, iff_of_false (by simp [alookup]) ?_⟩
            rintro ⟨c, u, obj, heq, hj⟩
            obtain ⟨rfl, rfl⟩ : c = content ∧ u = usage := by
              injection heq with hc hu
              exact ⟨hc.symm, hu.symm⟩
            rw [hjl] at hj
            simp at hj
          | str s =>
            simp [classify_text_with_openai, h1, h2, h3, hjl] at hok
            subst hok
            refine ⟨rfl, rfl, iff_of_false (by simp [alookup]) ?_⟩
            rintro ⟨c, u, obj, heq, hj⟩
            obtain ⟨rfl, rfl⟩ : c = content ∧ u = usage := by
              injection heq with hc hu
              exact ⟨hc.symm, hu.symm⟩
            rw [hjl] at hj
            simp at hj
          | int n =>
            simp [classify_text_with_openai, h1, h2, h3, hjl] at hok
            subst hok
            refine ⟨rfl, rfl, iff_of_false (by simp [alookup]) ?_⟩
            rintro ⟨c, u, obj, heq, hj⟩
            obtain ⟨rfl, rfl⟩ : c = content ∧ u = usage := by
              injection heq with hc hu
              exact ⟨hc.symm, hu.symm⟩
            rw [hjl] at hj
            simp at hj
          | bool b =>
            simp [classify_text_with_openai, h1, h2, h3, hjl] at hok
            subst hok
            refine ⟨rfl, rfl, iff_of_false (by simp [alookup]) ?_⟩
            rintro ⟨c, u, obj, heq, hj⟩
            obtain ⟨rfl, rfl⟩ : c = content ∧ u = usage := by
              injection heq with hc hu
              exact ⟨hc.symm, hu.symm⟩
            rw [hjl] at hj
            simp at hj
          | list l =>
            simp [classify_text_with_openai, h1, h2, h3, hjl] at hok
            subst hok
            refine ⟨rfl, rfl, iff_of_false (by simp [alookup]) ?_⟩
            rintro ⟨c, u, obj, heq, hj⟩
            obtain ⟨rfl, rfl⟩ : c = content ∧ u = usage := by
              injection heq with hc hu
              exact ⟨hc.symm, hu.symm⟩
            rw [hjl] at hj
            simp at hj
    · simp [classify_text_with_openai, h1, h2, h3] at hok
  · intro jloads envApiKey e text ets model api_key incl ci d hok
    by_cases h1 : pyStrip text = ""
    · simp [extract_entities_with_openai, h1] at hok
    by_cases h3 : truthyStr (orStr api_key envApiKey) = true
    · obtain ⟨s, hs⟩ := assemble_default_ok text ets incl ci h1
      cases e with
      | openAIError m =>
        simp [extract_entities_with_openai, h1, h3, hs] at hok
        subst hok
        refine ⟨rfl, rfl, iff_of_false (by simp [alookup]) ?_⟩
        rintro ⟨c, u, v, heq, _⟩
        simp at heq
      | otherError m =>
        simp [extract_entities_with_openai, h1, h3, hs] at hok
        subst hok
        refine ⟨rfl, rfl, iff_of_false (by simp [alookup]) ?_⟩
        rintro ⟨c, u, v, heq, _⟩
        simp at heq
      | success content usage =>
        cases hjl : jloads content with
        | error err =>
          simp [extract_entities_with_openai, h1, h3, hs, hjl] at hok
          subst hok
          refine ⟨rfl, rfl, iff_of_false (by simp [alookup]) ?_⟩
          rintro ⟨c, u, v, heq, hj⟩
          obtain ⟨rfl, rfl⟩ : c = content ∧ u = usage := by
            injection heq with hc hu
            exact ⟨hc.symm, hu.symm⟩
          rw [hjl] at hj
          simp at hj
        | ok v =>
          simp [extract_entities_with_openai, h1, h3, hs, hjl] at hok
          subst hok
          exact ⟨rfl, rfl, iff_of_true (by rfl) ⟨content, usage, v, rfl, hjl⟩⟩
    · simp [extract_entities_with_openai, h1, h3] at hok

/-- C4 witness -/
theorem result_traceability_witness :
    (classify_text_with_openai (fun _ => Except.error "stub")
        (EndpointBehavior.openAIError "rate limit") Option.none
        "hello" ["a"] "gpt-3.5-turbo" (some "sk-test")).result
      = Except.ok
          [ ("error", PyVal.str "OpenAI API error: rate limit"),
            ("input_text", PyVal.str "hello"),
            ("available_categories", PyVal.list [PyVal.str "a"]) ] ∧
    alookup [ ("error", PyVal.str "OpenAI API error: rate limit"),
        ("input_text", PyVal.str "hello"),
        ("available_categories", PyVal.list [PyVal.str "a"]) ] "input_text"
      = some (PyVal.str "hello") :=
  ⟨rfl,
    (result_traceability.1 (fun _ => Except.error "stub") Option.none
      (EndpointBehavior.openAIError "rate limit") "hello" ["a"] "gpt-3.5-turbo" (some "sk-test")
      _ rfl).1⟩

/-- C8 counterexample -/
theorem parse_failure_missing_model_cex :
    ∃ d, (classify_text_with_openai (fun _ => Except.error "Expecting value: line 1 column 1 (char 0)")
        (EndpointBehavior.success "not json" (some 7)) Option.none
        "hello" ["a"] "gpt-3.5-turbo" (some "sk-test")).result = Except.ok d ∧
      alookup d "raw_response" = some (PyVal.str "not json") ∧
      alookup d "json_error" = some (PyVal.str "Expecting value: line 1 column 1 (char 0)") ∧
      alookup d "model_used" = Option.none ∧
      alookup d "tokens_used" = Option.none :=
  ⟨_, rfl, rfl, rfl, rfl, rfl⟩

/-- C8 amended -/
theorem parse_failure_raw_response :
    (∀ (jloads : String → Except String PyVal) (envApiKey : Option String)
       (text : String) (cats : List String) (model : String) (api_key : Option String)
       (content : String) (usage : Option Nat) (err : String),
       pyStrip text ≠ "" → cats ≠ [] → truthyStr (orStr api_key envApiKey) = true →
       jloads content = Except.error err →
       (classify_text_with_openai jloads (EndpointBehavior.success content usage) envApiKey text cats model api_key).result
         = Except.ok
             [ ("error", PyVal.str "Failed to parse JSON response from OpenAI"),
               ("raw_response", PyVal.str content),
               ("json_error", PyVal.str err),
               ("input_text", PyVal.str text),
               ("available_categories", PyVal.list (cats.map PyVal.str)) ])
    ∧
    (∀ (jloads : String → Except String PyVal) (envApiKey : Option String)
       (text : String) (ets : Option (List (String × Entity))) (model : String)
       (api_key : Option String) (incl : Bool) (ci : Option String)
       (content : String) (usage : Option Nat) (err : String),
       pyStrip text ≠ "" → truthyStr (orStr api_key envApiKey) = true →
       jloads content = Except.error err →
       (extract_entities_with_openai jloads (EndpointBehavior.success content usage) envApiKey text ets ENTITY_EXTRACTION_PROMPT model api_key incl ci).result
         = Except.ok
             [ ("error", PyVal.str "Failed to parse JSON response from OpenAI"),
               ("raw_response", PyVal.str content),
               ("json_error", PyVal.str err),
               ("input_text", PyVal.str text),
               ("entity_types_used", PyVal.list ((entityTypesUsed ets).map PyVal.str)) ])
    ∧
    (∀ (endpoint : EndpointBehavior) (envApiKey : Option String)
       (product_item_name : String) (product_description : Option String)
       (model : String) (api_key : Option String),
       (generate_product_classification_text endpoint envApiKey product_item_name
           product_description model api_key).result
         = Except.error (PyExn.nameError "product_items")) := by
  refine ⟨?_, ?_, ?_⟩
  · intro jloads envApiKey text cats model api_key content usage err h1 h2 h3 hjl
    simp [classify_text_with_openai, h1, h2, h3, hjl]
  · intro jloads envApiKey text ets model api_key incl ci content usage err h1 h3 hjl
    obtain ⟨s, hs⟩ := assemble_default_ok text ets incl ci h1
    simp [extract_entities_with_openai, h1, h3, hs, hjl]
  · intro endpoint envApiKey product_item_name product_description model api_key
    rfl

/-- C8 witness -/
theorem parse_failure_raw_response_witness :
    pyStrip "hello" ≠ "" ∧ (["a"] : List String) ≠ [] ∧
    truthyStr (orStr (some "sk-test") Option.none) = true ∧
    (classify_text_with_openai (fun _ => Except.error "Expecting value")
        (EndpointBehavior.success "not json" (some 7)) Option.none
        "hello" ["a"] "gpt-3.5-turbo" (some "sk-test")).result
      = Except.ok
          [ ("error", PyVal.str "Failed to parse JSON response from OpenAI"),
            ("raw_response", PyVal.str "not json"),
            ("json_error", PyVal.str "Expecting value"),
            ("input_text", PyVal.str "hello"),
            ("available_categories", PyVal.list [PyVal.str "a"]) ] :=
  ⟨by decide, by decide, by decide,
    parse_failure_raw_response.1 _ _ _ _ _ _ _ _ _ (by decide) (by decide) (by decide) rfl⟩

/-- C5 -/
theorem empty_text_validation_eval :
    (∀ (jloads : String → Except String PyVal) (endpoint : EndpointBehavior)
       (envApiKey : Option String) (text : String) (cats : List String)
       (model : String) (api_key : Option String), pyStrip text = "" →
       (classify_text_with_openai jloads endpoint envApiKey text cats model api_key).result
         = Except.error (PyExn.valueError "text_to_classify cannot be empty") ∧
       (classify_text_with_openai jloads endpoint envApiKey text cats model api_key).networkCalled = false)
    ∧
    (∀ (text : String) (ets : Option (List (String × Entity))) (tmpl : List TmplPart)
       (incl : Bool) (ci : Option String), pyStrip text = "" →
       assemble_ner_prompt text ets tmpl incl ci
         = Except.error (PyExn.valueError "text cannot be empty"))
    ∧
    (∀ (jloads : String → Except String PyVal) (endpoint : EndpointBehavior)
       (envApiKey : Option String) (text : String) (ets : Option (List (String × Entity)))
       (tmpl : List TmplPart) (model : String) (api_key : Option String)
       (incl : Bool) (ci : Option String), pyStrip text = "" →
       (extract_entities_with_openai jloads endpoint envApiKey text ets tmpl model api_key incl ci).result
         = Except.error (PyExn.valueError "text cannot be empty") ∧
       (extract_entities_with_openai jloads endpoint envApiKey text ets tmpl model api_key incl ci).networkCalled = false)
    ∧
    (∀ (endpoint : EndpointBehavior) (envApiKey : Option String)
       (product_description : Option String) (model : String) (api_key : Option String),
       (generate_product_classification_text endpoint envApiKey "" product_description model api_key).result
         = Except.error (PyExn.nameError "product_items") ∧
       (generate_product_classification_text endpoint envApiKey "" product_description model api_key).networkCalled = false) := by
  refine ⟨?_, ?_, ?_, ?_⟩
  · intro jloads endpoint envApiKey text cats model api_key h
    constructor <;> simp [classify_text_with_openai, h]
  · intro text ets tmpl incl ci h
    simp [assemble_ner_prompt, h]
  · intro jloads endpoint envApiKey text ets tmpl model api_key incl ci h
    constructor <;> simp [extract_entities_with_openai, h]
  · intro endpoint envApiKey product_description model api_key
    exact ⟨rfl, rfl⟩

/-- C5 witness -/
theorem empty_text_validation_eval_witness :
    pyStrip " \t " = "" ∧
    (classify_text_with_openai (fun _ => Except.error "stub")
        (EndpointBehavior.success "stub" Option.none) Option.none
        " \t " ["a"] "gpt-3.5-turbo" (some "sk-test")).result
      = Except.error (PyExn.valueError "text_to_classify cannot be empty") ∧
    assemble_ner_prompt " \t " Option.none ENTITY_EXTRACTION_PROMPT true Option.none
      = Except.error (PyExn.valueError "text cannot be empty") :=
  ⟨by decide,
    (empty_text_validation_eval.1 _ _ _ _ _ _ _ (by decide)).1,
    empty_text_validation_eval.2.1 _ _ _ _ _ (by decide)⟩

set_option maxRecDepth 10000 in
/-- C6 counterexample -/
theorem empty_entity_types_no_error_cex :
    assemble_ner_prompt "hello" (some []) ENTITY_EXTRACTION_PROMPT true Option.none
      = Except.ok "\nYou are an entity extraction expert. You are given a text and you need to extract the entities from the text.\n\nHere is a list of the entity types you can extract:\n\n\nThe text to extract entities from is:\nhello\n\nReturn the entities in the following JSON format:\n\x7b\"entities\": [\x7b\"predicted_entity_type\": \"entity_type\", \"predicted_entity_name\": \"entity_name\", \"predicted_entity_description\": \"entity_description\"\x7d]\x7d\n" := by
  rfl

/-- C6 amended -/
theorem empty_taxonomy_validation :
    (∀ (jloads : String → Except String PyVal) (endpoint : EndpointBehavior)
       (envApiKey : Option String) (text : String) (model : String) (api_key : Option String),
       pyStrip text ≠ "" →
       (classify_text_with_openai jloads endpoint envApiKey text [] model api_key).result
         = Except.error (PyExn.valueError "classification_categories cannot be empty") ∧
       (classify_text_with_openai jloads endpoint envApiKey text [] model api_key).networkCalled = false)
    ∧
    (∀ (text : String) (incl : Bool) (ci : Option String), pyStrip text ≠ "" →
       ∃ s, assemble_ner_prompt text (some []) ENTITY_EXTRACTION_PROMPT incl ci = Except.ok s) := by
  constructor
  · intro jloads endpoint envApiKey text model api_key h1
    constructor <;> simp [classify_text_with_openai, h1]
  · intro text incl ci h1
    exact assemble_default_ok text (some []) incl ci h1

/-- C6 witness -/
theorem empty_taxonomy_validation_witness :
    pyStrip "hello" ≠ "" ∧
    (classify_text_with_openai (fun _ => Except.error "stub")
        (EndpointBehavior.success "stub" Option.none) Option.none
        "hello" [] "gpt-3.5-turbo" (some "sk-test")).result
      = Except.error (PyExn.valueError "classification_categories cannot be empty") ∧
    (∃ s, assemble_ner_prompt "hello" (some []) ENTITY_EXTRACTION_PROMPT true Option.none
      = Except.ok s) :=
  ⟨by decide,
    (empty_taxonomy_validation.1 _ _ _ _ _ _ (by decide)).1,
    empty_taxonomy_validation.2 _ _ _ (by decide)⟩

theorem isSubstr_trans (a b c : String) (h1 : isSubstr a b) (h2 : isSubstr b c) : isSubstr a c :=
  List.IsInfix.trans h1 h2

theorem isSubstr_applyCustomInstructions (fp : String) (ci : Option String) :
    isSubstr fp (applyCustomInstructions fp ci) := by
  cases ci with
  | none => exact isSubstr_rfl fp
  | some s =>
    by_cases h : s = ""
    · simp only [applyCustomInstructions, if_pos h]
      exact isSubstr_rfl fp
    · simp only [applyCustomInstructions, if_neg h]
      exact isSubstr_append_right _ _ _ (isSubstr_append_right _ _ _ (isSubstr_rfl fp))

theorem isSubstr_name_formatEntityLine (incl : Bool) (e : Entity) :
    isSubstr e.name (formatEntityLine incl e) := by
  have base : isSubstr e.name (("- " ++ e.name ++ ": ") ++ pyOptStr e.description) :=
    isSubstr_append_right _ _ _ (isSubstr_append_right _ _ _ (isSubstr_append_left _ _ _ (isSubstr_rfl e.name)))
  obtain ⟨name, desc, exs⟩ := e
  cases exs with
  | none => exact base
  | some l =>
    simp only [formatEntityLine]
    by_cases h : incl && !l.isEmpty
    · rw [if_pos h]
      exact isSubstr_append_right _ _ _ (isSubstr_append_right _ _ _ base)
    · rw [if_neg h]
      exact base

theorem isSubstr_desc_formatEntityLine (incl : Bool) (e : Entity) (d : String)
    (hd : e.description = some d) : isSubstr d (formatEntityLine incl e) := by
  have base : isSubstr d (("- " ++ e.name ++ ": ") ++ pyOptStr e.description) := by
    rw [hd]
    exact isSubstr_append_left _ _ _ (isSubstr_rfl d)
  obtain ⟨name, desc, exs⟩ := e
  cases exs with
  | none => exact base
  | some l =>
    simp only [formatEntityLine]
    by_cases h : incl && !l.isEmpty
    · rw [if_pos h]
      exact isSubstr_append_right _ _ _ (isSubstr_append_right _ _ _ base)
    · rw [if_neg h]
      exact base

theorem assemble_some_eval (text : String) (ets : List (String × Entity))
    (incl : Bool) (ci : Option String) (h : pyStrip text ≠ "") :
    assemble_ner_prompt text (some ets) ENTITY_EXTRACTION_PROMPT incl ci
      = Except.ok (applyCustomInstructions
          ("\nYou are an entity extraction expert. You are given a text and you need to extract the entities from the text.\n\nHere is a list of the entity types you can extract:\n"
            ++ (joinSep "\n" (ets.map (fun p => formatEntityLine incl p.2))
              ++ ("\n\nThe text to extract entities from is:\n"
                ++ (text
                  ++ ("\n\nReturn the entities in the following JSON format:\n\x7b\"entities\": [\x7b\"predicted_entity_type\": \"entity_type\", \"predicted_entity_name\": \"entity_name\", \"predicted_entity_description\": \"entity_description\"\x7d]\x7d\n"
                    ++ ""))))) ci) := by
  unfold assemble_ner_prompt
  rw [if_neg h]
  rfl

/-- C9 -/
theorem ner_prompt_contains_taxonomy :
    (∀ (text : String) (ets : List (String × Entity)) (incl : Bool) (ci : Option String)
       (s : String) (ke : String × Entity),
       assemble_ner_prompt text (some ets) ENTITY_EXTRACTION_PROMPT incl ci = Except.ok s →
       ke ∈ ets →
       isSubstr ke.2.name s ∧ (∀ d, ke.2.description = some d → isSubstr d s))
    ∧
    (∀ (text : String) (tmpl : List TmplPart) (incl : Bool) (ci : Option String),
       assemble_ner_prompt text Option.none tmpl incl ci
         = assemble_ner_prompt text (some ENTITY_TYPES) tmpl incl ci)
    ∧
    (∀ (endpoint : EndpointBehavior) (envApiKey : Option String)
       (model : String) (api_key : Option String),
       (generate_product_classification_text endpoint envApiKey "iPhone 15 Pro" Option.none
           model api_key).result
         = Except.error (PyExn.nameError "product_items")) := by
  refine ⟨?_, ?_, ?_⟩
  · intro text ets incl ci s ke hok hke
    by_cases h1 : pyStrip text = ""
    · rw [assemble_ner_prompt, if_pos h1] at hok
      cases hok
    · rw [assemble_some_eval text ets incl ci h1] at hok
      injection hok with hs
      subst hs
      have hline : isSubstr (formatEntityLine incl ke.2)
          (joinSep "\n" (ets.map (fun p => formatEntityLine incl p.2))) :=
        isSubstr_joinSep "\n" _ _ (List.mem_map_of_mem _ hke)
      have hett : isSubstr (joinSep "\n" (ets.map (fun p => formatEntityLine incl p.2)))
          ("\nYou are an entity extraction expert. You are given a text and you need to extract the entities from the text.\n\nHere is a list of the entity types you can extract:\n"
            ++ (joinSep "\n" (ets.map (fun p => formatEntityLine incl p.2))
              ++ ("\n\nThe text to extract entities from is:\n"
                ++ (text
                  ++ ("\n\nReturn the entities in the following JSON format:\n\x7b\"entities\": [\x7b\"predicted_entity_type\": \"entity_type\", \"predicted_entity_name\": \"entity_name\", \"predicted_entity_description\": \"entity_description\"\x7d]\x7d\n"
                    ++ ""))))) :=
        isSubstr_append_left _ _ _ (isSubstr_append_right _ _ _ (isSubstr_rfl _))
      constructor
      · exact isSubstr_trans _ _ _
          (isSubstr_trans _ _ _
            (isSubstr_trans _ _ _ (isSubstr_name_formatEntityLine incl ke.2) hline) hett)
          (isSubstr_applyCustomInstructions _ ci)
      · intro d hd
        exact isSubstr_trans _ _ _
          (isSubstr_trans _ _ _
            (isSubstr_trans _ _ _ (isSubstr_desc_formatEntityLine incl ke.2 d hd) hline) hett)
          (isSubstr_applyCustomInstructions _ ci)
  · intro text tmpl incl ci
    rfl
  · intro endpoint envApiKey model api_key
    rfl

set_option maxRecDepth 10000 in
/-- C9 witness -/
theorem ner_prompt_contains_taxonomy_witness :
    assemble_ner_prompt "Paris is nice"
        (some [("city", { name := "city", description := some "a large human settlement" })])
        ENTITY_EXTRACTION_PROMPT true Option.none
      = Except.ok "\nYou are an entity extraction expert. You are given a text and you need to extract the entities from the text.\n\nHere is a list of the entity types you can extract:\n- city: a large human settlement\n\nThe text to extract entities from is:\nParis is nice\n\nReturn the entities in the following JSON format:\n\x7b\"entities\": [\x7b\"predicted_entity_type\": \"entity_type\", \"predicted_entity_name\": \"entity_name\", \"predicted_entity_description\": \"entity_description\"\x7d]\x7d\n" ∧
    ("city", ({ name := "city", description := some "a large human settlement" } : Entity))
      ∈ [("city", ({ name := "city", description := some "a large human settlement" } : Entity))] ∧
    isSubstr "city" "\nYou are an entity extraction expert. You are given a text and you need to extract the entities from the text.\n\nHere is a list of the entity types you can extract:\n- city: a large human settlement\n\nThe text to extract entities from is:\nParis is nice\n\nReturn the entities in the following JSON format:\n\x7b\"entities\": [\x7b\"predicted_entity_type\": \"entity_type\", \"predicted_entity_name\": \"entity_name\", \"predicted_entity_description\": \"entity_description\"\x7d]\x7d\n" ∧
    isSubstr "a large human settlement" "\nYou are an entity extraction expert. You are given a text and you need to extract the entities from the text.\n\nHere is a list of the entity types you can extract:\n- city: a large human settlement\n\nThe text to extract entities from is:\nParis is nice\n\nReturn the entities in the following JSON format:\n\x7b\"entities\": [\x7b\"predicted_entity_type\": \"entity_type\", \"predicted_entity_name\": \"entity_name\", \"predicted_entity_description\": \"entity_description\"\x7d]\x7d\n" :=
  ⟨rfl, List.mem_singleton.mpr rfl,
    (ner_prompt_contains_taxonomy.1 "Paris is nice"
      [("city", { name := "city", description := some "a large human settlement" })] true Option.none
      _ ("city", { name := "city", description := some "a large human settlement" })
      rfl (List.mem_singleton.mpr rfl)).1,
    (ner_prompt_contains_taxonomy.1 "Paris is nice"
      [("city", { name := "city", description := some "a large human settlement" })] true Option.none
      _ ("city", { name := "city", description := some "a large human settlement" })
      rfl (List.mem_singleton.mpr rfl)).2 "a large human settlement" rfl⟩
